import Mathlib

/-! System uptime resource (`res-system-uptime.c`).

A shallow embedding of the uptime accumulator (`uptime_process`) and of the
uptime resource handler (`res_get_handler`).

Integer types.  The file fixes two widths itself: `rtimer_clock_t` is
`unsigned short` with maximum `USHRT_MAX` (16 bits), and `uptime_seconds` is an
`unsigned long` that overflows after "~136.19 years" of seconds, that is 32
bits.  `unsigned char` is 8 bits.  The width of `int` is not fixed by the file:
with a 32-bit `unsigned long` it is 16 bits (the AVR and MSP430 targets of
Contiki) or 32 bits, so the embedding keeps it as the parameter `IntWidth`.
Values are `Nat`/`Int` and every conversion and every arithmetic result is
reduced explicitly.
-/

namespace Uptime

/-! ## C integer arithmetic -/

/-- Width of the C type `int` (and of `unsigned int`). -/
inductive IntWidth where
  | w16
  | w32
  deriving DecidableEq, Repr

/-- Number of values of `unsigned int`: `UINT_MAX + 1`. -/
def IntWidth.modulus : IntWidth → Int
  | .w16 => 65536
  | .w32 => 4294967296

/-- Half of the modulus: `INT_MAX + 1`. -/
def IntWidth.half : IntWidth → Int
  | .w16 => 32768
  | .w32 => 2147483648

/-- Value of `UINT_MAX`, which is also `(unsigned int)-1`. -/
def UINT_MAX (iw : IntWidth) : Nat :=
  match iw with
  | .w16 => 65535
  | .w32 => 4294967295

/-- Conversion to `unsigned char`. -/
def toUChar (x : Int) : Nat := (x % 256).toNat

/-- Conversion to `unsigned short` (and to `rtimer_clock_t`). -/
def toUShort (x : Int) : Nat := (x % 65536).toNat

/-- Conversion to `unsigned long`. -/
def toULong (x : Int) : Nat := (x % 4294967296).toNat

/-- Result of an arithmetic operation of type `unsigned int`. -/
def wrapUInt (iw : IntWidth) (x : Int) : Int := x % iw.modulus

/-- Result of an arithmetic operation of type `int`.  Signed overflow is
undefined in C; the embedding gives it the two's-complement wraparound that the
compilers for these targets produce. -/
def wrapInt (iw : IntWidth) (x : Int) : Int := (x + iw.half) % iw.modulus - iw.half

/-- Result of an arithmetic operation whose operands are promoted
`unsigned short` values: the promoted type is `int` when `int` holds every
`unsigned short` value, and `unsigned int` otherwise. -/
def wrapPromotedUShort (iw : IntWidth) (x : Int) : Int :=
  match iw with
  | .w16 => wrapUInt .w16 x
  | .w32 => wrapInt .w32 x

/-! ## Shared state -/

/-- The variables with static storage duration: the global `uptime_seconds`,
the file-static `use_rtimer`, the two statics of `uptime_process`, and whether
`process_start` has been called for `uptime_process`. -/
structure State where
  uptime_seconds : Nat
  use_rtimer : Nat
  rtimer_delta : Nat
  rtimer_last : Nat
  process_started : Bool
  deriving DecidableEq, Repr

/-- The initial values given by the initialisers in the file. -/
def State.initial : State :=
  { uptime_seconds := 0, use_rtimer := 1, rtimer_delta := 0, rtimer_last := 0,
    process_started := false }

/-! ## `res_get_handler`, lines 99-108: the decomposition -/

/-- The four numbers the handler prints. -/
structure Decomposition where
  days : Nat
  hours : Nat
  minutes : Nat
  us : Nat
  deriving DecidableEq, Repr

/-- Lines 101-108 of `res_get_handler`, started from the value `us` of line 99.
`60*60*24UL` is the `unsigned long` constant 86400, so the quotient and the
product of lines 101-102 are computed in `unsigned long`.  In the quotients of
lines 104 and 107 the `int` divisor (3600, 60) is converted to `unsigned long`.
`hours * (60*60)` and `minutes * 60` have operands of type `unsigned char` and
`int`, so they are computed in `int` and the result is then converted to
`unsigned long` for the subtraction.  Each quotient is narrowed to the type of
the variable it initialises. -/
def decompose (iw : IntWidth) (us0 : Nat) : Decomposition :=
  let days : Nat := toUShort (us0 / 86400 : Nat)
  let us1 : Nat := toULong ((us0 : Int) - toULong ((days : Int) * 86400))
  let hours : Nat := toUChar (us1 / 3600 : Nat)
  let us2 : Nat := toULong ((us1 : Int) - toULong (wrapInt iw ((hours : Int) * wrapInt iw (60 * 60))))
  let minutes : Nat := toUChar (us2 / 60 : Nat)
  let us3 : Nat := toULong ((us2 : Int) - toULong (wrapInt iw ((minutes : Int) * 60)))
  { days := days, hours := hours, minutes := minutes, us := us3 }

/-- Line 99 of `res_get_handler`: the source value, `uptime_seconds` when
`use_rtimer` is non-zero and the result of `clock_seconds()` otherwise. -/
def source_seconds (st : State) (clock_seconds : Nat) : Nat :=
  if st.use_rtimer ≠ 0 then st.uptime_seconds else clock_seconds

/-! ## `uptime_process`, lines 47-66: one pass of the loop -/

/-- Lines 50-53: the value of the right operand of `rtimer_delta += ...`, an
expression over promoted `unsigned short` operands (`RTIMER_CLOCK_T_MAX` is
`USHRT_MAX`, 65535, of the promoted type). -/
def rtimer_increment (iw : IntWidth) (rtimer_last rtimer_now : Nat) : Int :=
  if rtimer_now > rtimer_last then
    wrapPromotedUShort iw ((rtimer_now : Int) - rtimer_last)
  else
    wrapPromotedUShort iw (wrapPromotedUShort iw (65535 - (rtimer_last : Int)) + rtimer_now)

/-- Lines 50-53: `rtimer_delta` after the `+=`, the sum being computed in the
promoted type and stored in a `rtimer_clock_t`. -/
def rtimer_delta_incremented (iw : IntWidth) (rtimer_delta rtimer_last rtimer_now : Nat) : Nat :=
  toUShort (wrapPromotedUShort iw ((rtimer_delta : Int) + rtimer_increment iw rtimer_last rtimer_now))

/-- Line 55: `elapsed_seconds = rtimer_delta / RTIMER_SECOND`, stored in an
`unsigned short`.  `RTIMER_SECOND` is a positive constant of the platform that
the file does not define; it is the parameter of the same name. -/
def elapsed_seconds (RTIMER_SECOND : Nat) (rtimer_delta : Nat) : Nat :=
  toUShort (rtimer_delta / RTIMER_SECOND : Nat)

/-- Lines 48-63: one pass of the `while (1)` body, from the sample returned by
`RTIMER_NOW()` to the assignment of `rtimer_last`; the pass ends at
`PROCESS_PAUSE()`.  The product `elapsed_seconds * RTIMER_SECOND` is at most
`rtimer_delta`, so it is the same number in every unsigned or promoted type it
can be computed in; the store narrows to `rtimer_clock_t`. -/
def uptime_step (iw : IntWidth) (RTIMER_SECOND : Nat) (st : State) (sample : Nat) : State :=
  let rtimer_now : Nat := toUShort sample
  let rtimer_delta : Nat := rtimer_delta_incremented iw st.rtimer_delta st.rtimer_last rtimer_now
  let elapsed : Nat := elapsed_seconds RTIMER_SECOND rtimer_delta
  if elapsed > 0 then
    { st with
      uptime_seconds := toULong ((st.uptime_seconds : Int) + elapsed)
      rtimer_delta := toUShort ((rtimer_delta : Int) - (elapsed : Int) * RTIMER_SECOND)
      rtimer_last := rtimer_now }
  else
    { st with rtimer_delta := rtimer_delta, rtimer_last := rtimer_now }

/-- The loop of `uptime_process` over the successive values of `RTIMER_NOW()`. -/
def uptime_process (iw : IntWidth) (RTIMER_SECOND : Nat) (st : State) (samples : List Nat) : State :=
  samples.foldl (uptime_step iw RTIMER_SECOND) st

/-- Lines 76-83: `res_system_uptime_init`. -/
def res_system_uptime_init (st : State) (use_rt : Nat) : State :=
  if use_rt ≠ 0 then
    { st with use_rtimer := 1, process_started := true }
  else
    { st with use_rtimer := 0 }

/-! ## Text formatting -/

/-- The terminating byte of a C string. -/
def NUL : Char := Char.ofNat 0

/-- Decimal digits of a number, as `printf` writes an unsigned conversion. -/
def decimal (n : Nat) : List Char := Nat.toDigits 10 n

/-- The conversions `res_get_handler` uses, after the C standard: `%hhu`
converts its argument to `unsigned char`, `%hu` to `unsigned short`, `%lu`
takes an `unsigned long`; every other character is copied. -/
def vformat : List Char → List Nat → List Char
  | '%' :: 'h' :: 'h' :: 'u' :: fmt, a :: args => decimal (toUChar a) ++ vformat fmt args
  | '%' :: 'h' :: 'u' :: fmt, a :: args => decimal (toUShort a) ++ vformat fmt args
  | '%' :: 'l' :: 'u' :: fmt, a :: args => decimal (toULong a) ++ vformat fmt args
  | c :: fmt, args => c :: vformat fmt args
  | [], _ => []

/-- C `snprintf(buffer, n, ...)` on the memory `buffer`, `text` being the
formatted output: nothing is stored when `n` is zero, otherwise the first
`n - 1` characters of the text and a terminating NUL overwrite the start of
the memory. -/
def snprintf (buffer : List Char) (n : Nat) (text : List Char) : List Char :=
  if n = 0 then buffer
  else
    let written := text.take (n - 1) ++ [NUL]
    written ++ buffer.drop written.length

/-- C `strlen`: the number of characters before the first NUL. -/
def strlen (s : List Char) : Nat := (s.takeWhile (fun c => c ≠ NUL)).length

/-! ## The REST engine interface -/

/-- Conversion to `unsigned int`. -/
def toUInt (iw : IntWidth) (x : Int) : Nat := (x % iw.modulus).toNat

/-- The request as the handler sees it: the Accept option, when there is one. -/
structure Request where
  accept : Option Nat
  deriving DecidableEq, Repr

/-- The response object the handler fills in. -/
structure Response where
  content_type : Option Nat
  status : Nat
  payload : List Char
  payload_length : Nat
  max_age : Option Nat
  deriving DecidableEq, Repr

/-- The content-type identifiers `REST.type.TEXT_PLAIN` and
`REST.type.APPLICATION_JSON` of the engine, which the file does not define. -/
structure RestTypes where
  TEXT_PLAIN : Nat
  APPLICATION_JSON : Nat
  deriving DecidableEq, Repr

/-- Modelled from the spec: the success status of the engine (`REST.status.OK`),
"200 (success, both representations)"; the engine is not part of the file. -/
def REST_status_OK : Nat := 200

/-- Modelled from the spec: `REST.status.NOT_ACCEPTABLE`, "406 (unsupported
representation requested)"; the engine is not part of the file. -/
def REST_status_NOT_ACCEPTABLE : Nat := 406

/-- Modelled from the spec: `REST.get_header_accept`, which stores "the incoming
Accept header classification" in the variable and leaves the variable as it is
when the request has none; the engine is not part of the file. -/
def get_header_accept (iw : IntWidth) (request : Request) (accept : Nat) : Nat :=
  match request.accept with
  | some a => toUInt iw a
  | none => accept

/-- Modelled from the spec: the "callback to set response content type"; the
engine is not part of the file. -/
def set_header_content_type (response : Response) (content_type : Nat) : Response :=
  { response with content_type := some content_type }

/-- Modelled from the spec: the "callback to set response payload", given the
memory the pointer refers to and a length; the engine is not part of the file. -/
def set_response_payload (response : Response) (memory : List Char) (length : Nat) : Response :=
  { response with payload := memory.take length, payload_length := length }

/-- Modelled from the spec: the "callback to set response status code"; the
engine is not part of the file. -/
def set_response_status (response : Response) (status : Nat) : Response :=
  { response with status := status }

/-- Modelled from the spec: the "callback to set a max-age header"; the engine
is not part of the file. -/
def set_header_max_age (response : Response) (age : Nat) : Response :=
  { response with max_age := some age }

/-- Modelled from the spec: the response as the engine hands it to the handler,
carrying the success status until a handler sets another one. -/
def Response.fresh : Response :=
  { content_type := none, status := REST_status_OK, payload := [], payload_length := 0,
    max_age := none }

/-! ## `res_get_handler` -/

/-- Line 34: `MAX_AGE`. -/
def MAX_AGE : Nat := 60

/-- Line 112: the format of the plain-text representation. -/
def plain_format : List Char := "%hu d %hhu h %hhu m %lu s (%lu/%lu s)\n".toList

/-- Line 117: the format of the JSON representation. -/
def json_format : List Char :=
  "\x7b\x27uptime\x27:\x27%hu d %hhu h %hhu m %lu s\x27\x7d".toList

/-- Line 122: the message of the 406 response, as a C string. -/
def not_acceptable_msg : List Char :=
  "Supporting content-types text/plain and application/json".toList ++ [NUL]

/-- What a call of the handler leaves behind: the variables with static storage
duration, the response object and the memory of the buffer. -/
structure HandlerResult where
  state : State
  response : Response
  buffer : List Char
  deriving DecidableEq, Repr

/-- Lines 93-127: `res_get_handler`.  `REST_MAX_CHUNK_SIZE` is a constant of the
engine that the file does not define; it is the parameter of the same name.
`clock_seconds` is the value `clock_seconds()` returns during the call. -/
def res_get_handler (iw : IntWidth) (R : RestTypes) (REST_MAX_CHUNK_SIZE : Nat)
    (st : State) (clock_seconds : Nat)
    (request : Request) (response : Response) (buffer : List Char)
    (preferred_size : Nat) (offset : Int) : HandlerResult :=
  let accept : Nat := get_header_accept iw request (UINT_MAX iw)
  let d : Decomposition := decompose iw (source_seconds st clock_seconds)
  if accept = UINT_MAX iw ∨ accept = R.TEXT_PLAIN then
    let response1 := set_header_content_type response R.TEXT_PLAIN
    let buffer1 := snprintf buffer REST_MAX_CHUNK_SIZE
      (vformat plain_format [d.days, d.hours, d.minutes, d.us, st.uptime_seconds, clock_seconds])
    let response2 := set_response_payload response1 buffer1 (strlen buffer1)
    { state := st, response := set_header_max_age response2 MAX_AGE, buffer := buffer1 }
  else if accept = R.APPLICATION_JSON then
    let response1 := set_header_content_type response R.APPLICATION_JSON
    let buffer1 := snprintf buffer REST_MAX_CHUNK_SIZE
      (vformat json_format [d.days, d.hours, d.minutes, d.us])
    let response2 := set_response_payload response1 buffer1 (strlen buffer1)
    { state := st, response := set_header_max_age response2 MAX_AGE, buffer := buffer1 }
  else
    let response1 := set_response_status response REST_status_NOT_ACCEPTABLE
    let response2 := set_response_payload response1 not_acceptable_msg (strlen not_acceptable_msg)
    { state := st, response := set_header_max_age response2 MAX_AGE, buffer := buffer }

/-! ## The texts named by the specification -/

/-- The decomposition in the words of the specification: `days = s / 86400`,
`hours = (s mod 86400) / 3600`, `minutes = (s mod 3600) / 60`,
`seconds = s mod 60`. -/
def spec_decompose (s : Nat) : Decomposition :=
  { days := s / 86400, hours := s % 86400 / 3600, minutes := s % 3600 / 60, us := s % 60 }

/-- The plain-text payload in the words of the specification:
`<days> d <hours> h <minutes> m <seconds> s (<raw>/<wallClockSeconds> s)`. -/
def spec_plain_text (d : Decomposition) (raw wallClockSeconds : Nat) : List Char :=
  decimal d.days ++ (" d ".toList ++ (decimal d.hours ++ (" h ".toList
    ++ (decimal d.minutes ++ (" m ".toList ++ (decimal d.us ++ (" s (".toList
    ++ (decimal raw ++ ("/".toList ++ (decimal wallClockSeconds ++ " s)".toList))))))))))

/-- The JSON-like payload in the words of the specification:
`{'uptime':'<days> d <hours> h <minutes> m <seconds> s'}`. -/
def spec_json_text (d : Decomposition) : List Char :=
  "\x7b\x27uptime\x27:\x27".toList ++ (decimal d.days ++ (" d ".toList
    ++ (decimal d.hours ++ (" h ".toList ++ (decimal d.minutes ++ (" m ".toList
    ++ (decimal d.us ++ " s\x27\x7d".toList)))))))

/-- The fixed message of the 406 response in the words of the specification. -/
def spec_not_acceptable_text : List Char :=
  "Supporting content-types text/plain and application/json".toList

/-- One accumulator step in the words of the specification (section 4.1, steps
2 to 5), over unbounded numbers except for the tick delta `d`, which is the
16-bit value after the increment: `elapsedSeconds = d / ticksPerSecond`,
`UptimeSeconds += elapsedSeconds`, `delta -= elapsedSeconds * ticksPerSecond`,
`last = now`. -/
def spec_step (ticksPerSecond : Nat) (st : State) (now : Nat) : State :=
  let increment : Nat :=
    if now > st.rtimer_last then now - st.rtimer_last else (65535 - st.rtimer_last) + now
  let d : Nat := (st.rtimer_delta + increment) % 65536
  let e : Nat := d / ticksPerSecond
  { st with
    uptime_seconds := st.uptime_seconds + e
    rtimer_delta := d - e * ticksPerSecond
    rtimer_last := now }

/-! ## Arithmetic lemmas -/

theorem toUChar_of_lt (n : Nat) (h : n < 256) : toUChar (n : Int) = n := by
  unfold toUChar; omega

theorem toUShort_of_lt (n : Nat) (h : n < 65536) : toUShort (n : Int) = n := by
  unfold toUShort; omega

theorem toULong_of_lt (n : Nat) (h : n < 4294967296) : toULong (n : Int) = n := by
  unfold toULong; omega

theorem toUShort_lt (x : Int) : toUShort x < 65536 := by
  unfold toUShort; omega

theorem toULong_lt (x : Int) : toULong x < 4294967296 := by
  unfold toULong; omega

theorem toUChar_lt (x : Int) : toUChar x < 256 := by
  unfold toUChar; omega

/-- An `int` result that fits is the mathematical one. -/
theorem wrapInt_of_fits (iw : IntWidth) (x : Int) (h1 : -iw.half ≤ x) (h2 : x < iw.half) :
    wrapInt iw x = x := by
  cases iw <;> simp only [wrapInt, IntWidth.half, IntWidth.modulus] at * <;> omega

/-- Subtracting a product that does not exceed the minuend, in `unsigned long`. -/
theorem toULong_sub_mul (a q k : Nat) (hk : q * k ≤ a) (ha : a < 4294967296) :
    toULong ((a : Int) - toULong ((q : Int) * k)) = a - q * k := by
  have hcast : (q : Int) * k = ((q * k : Nat) : Int) := by push_cast; rfl
  rw [hcast]
  generalize q * k = p at *
  unfold toULong; omega

/-- The decomposition is the exact one whenever the product `hours * (60*60)`
fits in `int`: always with a 32-bit `int`, and up to ten hours into the day
with a 16-bit `int`. -/
theorem decompose_exact (iw : IntWidth) (s : Nat) (hs : s < 4294967296)
    (hfit : iw = IntWidth.w32 ∨ s % 86400 < 36000) :
    decompose iw s = ⟨s / 86400, s % 86400 / 3600, s % 3600 / 60, s % 60⟩ := by
  unfold decompose
  lift_lets
  intro days us1 hours us2 minutes us3
  have hdays : days = s / 86400 := toUShort_of_lt _ (by omega)
  have hus1 : us1 = s % 86400 := by
    show toULong ((s : Int) - toULong ((days : Int) * (86400 : Nat))) = _
    rw [toULong_sub_mul s days 86400 (by rw [hdays]; omega) hs, hdays]; omega
  have hhours : hours = s % 86400 / 3600 := by
    show toUChar ((us1 / 3600 : Nat) : Int) = _
    rw [hus1]; exact toUChar_of_lt _ (by omega)
  have hh : hours < 24 := by rw [hhours]; omega
  have h3600 : wrapInt iw (60 * 60) = 3600 := by
    cases iw <;> simp only [wrapInt, IntWidth.half, IntWidth.modulus] <;> omega
  have hprod : wrapInt iw ((hours : Int) * wrapInt iw (60 * 60)) = (hours : Int) * (3600 : Nat) := by
    rw [h3600]
    apply wrapInt_of_fits
    · cases iw <;> simp only [IntWidth.half] <;> omega
    · rcases hfit with h | h
      · subst h; simp only [IntWidth.half]; omega
      · have hh10 : hours < 10 := by rw [hhours]; omega
        cases iw <;> simp only [IntWidth.half] <;> omega
  have hus1lt : us1 < 4294967296 := by rw [hus1]; omega
  have hus2 : us2 = s % 3600 := by
    show toULong ((us1 : Int) - toULong (wrapInt iw ((hours : Int) * wrapInt iw (60 * 60)))) = _
    rw [hprod, toULong_sub_mul us1 hours 3600 (by rw [hhours, hus1]; omega) hus1lt, hhours, hus1]
    omega
  have hmin : minutes = s % 3600 / 60 := by
    show toUChar ((us2 / 60 : Nat) : Int) = _
    rw [hus2]; exact toUChar_of_lt _ (by omega)
  have hm : minutes < 60 := by rw [hmin]; omega
  have hprod2 : wrapInt iw ((minutes : Int) * 60) = (minutes : Int) * (60 : Nat) := by
    apply wrapInt_of_fits <;> cases iw <;> simp only [IntWidth.half] <;> omega
  have hus2lt : us2 < 4294967296 := by rw [hus2]; omega
  have hus3 : us3 = s % 60 := by
    show toULong ((us2 : Int) - toULong (wrapInt iw ((minutes : Int) * 60))) = _
    rw [hprod2, toULong_sub_mul us2 minutes 60 (by rw [hmin, hus2]; omega) hus2lt, hmin, hus2]
    omega
  rw [hdays, hhours, hmin, hus3]

/-- Where the product fits, the code computes the decomposition of the
specification. -/
theorem decompose_eq_spec (iw : IntWidth) (s : Nat) (hs : s < 4294967296)
    (hfit : iw = IntWidth.w32 ∨ s % 86400 < 36000) :
    decompose iw s = spec_decompose s :=
  decompose_exact iw s hs hfit

/-- The source value of line 99 is an `unsigned long` when both candidates are. -/
theorem source_seconds_lt (st : State) (cs : Nat)
    (hu : st.uptime_seconds < 4294967296) (hc : cs < 4294967296) :
    source_seconds st cs < 4294967296 := by
  unfold source_seconds
  split
  · exact hu
  · exact hc

/-! ## The accumulator in closed form -/

/-- The increment of lines 50-53 is never reduced by the promoted type. -/
theorem rtimer_increment_eq (iw : IntWidth) (last now : Nat)
    (hl : last ≤ 65535) (hn : now ≤ 65535) :
    rtimer_increment iw last now
      = if now > last then (now : Int) - last else (65535 - (last : Int)) + now := by
  unfold rtimer_increment
  split <;> cases iw <;>
    simp only [wrapPromotedUShort, wrapUInt, wrapInt, IntWidth.modulus, IntWidth.half] <;> omega

/-- Storing a promoted result in an `unsigned short` forgets the promoted type. -/
theorem toUShort_wrapPromotedUShort (iw : IntWidth) (x : Int) :
    toUShort (wrapPromotedUShort iw x) = toUShort x := by
  cases iw <;>
    simp only [toUShort, wrapPromotedUShort, wrapUInt, wrapInt, IntWidth.modulus,
      IntWidth.half] <;> omega

/-- The quotient of line 55 fits its `unsigned short`. -/
theorem elapsed_seconds_eq (T d : Nat) (hd : d < 65536) : elapsed_seconds T d = d / T := by
  unfold elapsed_seconds
  apply toUShort_of_lt
  exact lt_of_le_of_lt (Nat.div_le_self d T) hd

theorem rtimer_delta_incremented_lt (iw : IntWidth) (delta last now : Nat) :
    rtimer_delta_incremented iw delta last now < 65536 :=
  toUShort_lt _

/-- Line 59 leaves the remainder of the division of line 55. -/
theorem delta_after_subtraction (T d : Nat) (hd : d < 65536) :
    toUShort ((d : Int) - ((d / T : Nat) : Int) * T) = d % T := by
  have h1 : d / T * T + d % T = d := Nat.div_add_mod' d T
  have h2 : d % T ≤ d := Nat.mod_le d T
  have h3 : ((d / T : Nat) : Int) * T = ((d / T * T : Nat) : Int) := by push_cast; ring
  rw [h3]
  generalize d / T * T = q at *
  generalize d % T = r at *
  unfold toUShort; omega

/-- One pass of the loop in closed form: `d` is `rtimer_delta` after line 53. -/
theorem uptime_step_eq (iw : IntWidth) (T : Nat) (st : State) (sample : Nat) :
    uptime_step iw T st sample =
      { st with
        uptime_seconds :=
          if 0 < rtimer_delta_incremented iw st.rtimer_delta st.rtimer_last (toUShort sample) / T
          then (st.uptime_seconds
            + rtimer_delta_incremented iw st.rtimer_delta st.rtimer_last (toUShort sample) / T)
              % 4294967296
          else st.uptime_seconds
        rtimer_delta :=
          if 0 < rtimer_delta_incremented iw st.rtimer_delta st.rtimer_last (toUShort sample) / T
          then rtimer_delta_incremented iw st.rtimer_delta st.rtimer_last (toUShort sample) % T
          else rtimer_delta_incremented iw st.rtimer_delta st.rtimer_last (toUShort sample)
        rtimer_last := toUShort sample } := by
  have hd := rtimer_delta_incremented_lt iw st.rtimer_delta st.rtimer_last (toUShort sample)
  unfold uptime_step
  simp only [elapsed_seconds_eq T _ hd]
  split
  · rw [delta_after_subtraction T _ hd]
    have : toULong ((st.uptime_seconds : Int) + ((rtimer_delta_incremented iw st.rtimer_delta
        st.rtimer_last (toUShort sample) / T : Nat) : Int))
        = (st.uptime_seconds + rtimer_delta_incremented iw st.rtimer_delta
        st.rtimer_last (toUShort sample) / T) % 4294967296 := by
      generalize rtimer_delta_incremented iw st.rtimer_delta st.rtimer_last (toUShort sample) / T = e
      unfold toULong; omega
    rw [this]
  · rfl

/-- The increment of the wrap branch is one tick short of the cyclic distance:
the step from `RTIMER_CLOCK_T_MAX` to 0 is not counted. -/
theorem rtimer_increment_wrap_branch (iw : IntWidth) (last now : Nat)
    (hl : last ≤ 65535) (hn : now < last) :
    rtimer_increment iw last now + 1 = ((now : Int) - last) % 65536 := by
  rw [rtimer_increment_eq iw last now hl (by omega)]
  split <;> omega

/-! ## Formatting lemmas -/

/-- The text of line 112 for given arguments. -/
theorem vformat_plain (a b c d e f : Nat) :
    vformat plain_format [a, b, c, d, e, f]
      = decimal (toUShort a) ++ (" d ".toList ++ (decimal (toUChar b) ++ (" h ".toList
        ++ (decimal (toUChar c) ++ (" m ".toList ++ (decimal (toULong d) ++ (" s (".toList
        ++ (decimal (toULong e) ++ ("/".toList ++ (decimal (toULong f)
        ++ " s)\n".toList)))))))))) := by
  rfl

/-- The text of line 117 for given arguments. -/
theorem vformat_json (a b c d : Nat) :
    vformat json_format [a, b, c, d]
      = "\x7b\x27uptime\x27:\x27".toList ++ (decimal (toUShort a) ++ (" d ".toList
        ++ (decimal (toUChar b) ++ (" h ".toList ++ (decimal (toUChar c) ++ (" m ".toList
        ++ (decimal (toULong d) ++ " s\x27\x7d".toList))))))) := by
  rfl

theorem digitChar_ne_NUL (n : Nat) : Nat.digitChar n ≠ NUL := by
  by_cases h : n < 16
  · revert n
    decide
  · unfold Nat.digitChar
    repeat rw [if_neg (by omega)]
    decide

theorem toDigitsCore_ne_NUL (b : Nat) : ∀ (fuel n : Nat) (ds : List Char),
    (∀ c ∈ ds, c ≠ NUL) → ∀ c ∈ Nat.toDigitsCore b fuel n ds, c ≠ NUL := by
  intro fuel
  induction fuel with
  | zero => intro n ds h; simpa only [Nat.toDigitsCore] using h
  | succ fuel ih =>
    intro n ds h
    have hcons : ∀ c ∈ Nat.digitChar (n % b) :: ds, c ≠ NUL := by
      intro c hc
      rcases List.mem_cons.mp hc with rfl | hc
      · exact digitChar_ne_NUL _
      · exact h c hc
    simp only [Nat.toDigitsCore]
    split
    · exact hcons
    · exact ih _ _ hcons

/-- A decimal numeral contains no NUL. -/
theorem decimal_ne_NUL (n : Nat) : ∀ c ∈ decimal n, c ≠ NUL :=
  toDigitsCore_ne_NUL 10 _ _ [] (by intro c hc; cases hc)

/-- The length of a string that is followed by a NUL. -/
theorem strlen_append_NUL (t rest : List Char) (h : ∀ c ∈ t, c ≠ NUL) :
    strlen (t ++ NUL :: rest) = t.length := by
  unfold strlen
  induction t with
  | nil => simp
  | cons c t ih =>
    have hc : c ≠ NUL := h c (List.mem_cons_self c t)
    have ht : ∀ x ∈ t, x ≠ NUL := fun x hx => h x (List.mem_cons_of_mem c hx)
    rw [List.cons_append, List.takeWhile_cons_of_pos (by simpa using hc)]
    simp only [List.length_cons, ih ht]

/-- A text without NUL that fits the size given to `snprintf` is stored whole,
and `strlen` of the memory is its length. -/
theorem snprintf_fits (buffer text : List Char) (n : Nat)
    (hnul : ∀ c ∈ text, c ≠ NUL) (hfit : text.length < n) :
    strlen (snprintf buffer n text) = text.length ∧
    (snprintf buffer n text).take text.length = text := by
  have hn : n ≠ 0 := by omega
  have htake : text.take (n - 1) = text := List.take_of_length_le (by omega)
  have hs : snprintf buffer n text
      = text ++ NUL :: buffer.drop (text ++ [NUL]).length := by
    simp only [snprintf, hn, if_false, htake, List.append_assoc, List.singleton_append]
  rw [hs]
  exact ⟨strlen_append_NUL _ _ hnul, List.take_left' rfl⟩

/-! ## Handler lemmas -/

theorem decompose_days_lt (iw : IntWidth) (s : Nat) : (decompose iw s).days < 65536 := by
  simp only [decompose]; exact toUShort_lt _

theorem decompose_hours_lt (iw : IntWidth) (s : Nat) : (decompose iw s).hours < 256 := by
  simp only [decompose]; exact toUChar_lt _

theorem decompose_minutes_lt (iw : IntWidth) (s : Nat) : (decompose iw s).minutes < 256 := by
  simp only [decompose]; exact toUChar_lt _

theorem decompose_us_lt (iw : IntWidth) (s : Nat) : (decompose iw s).us < 4294967296 := by
  simp only [decompose]; exact toULong_lt _

theorem not_mem_of_all_ne (l : List Char) (h : ∀ c ∈ l, c ≠ NUL) : NUL ∉ l :=
  fun hm => h NUL hm rfl

/-- The text of line 112 with the conversions resolved. -/
theorem vformat_plain_eq (iw : IntWidth) (s uptime cs : Nat)
    (hu : uptime < 4294967296) (hc : cs < 4294967296) :
    vformat plain_format [(decompose iw s).days, (decompose iw s).hours,
        (decompose iw s).minutes, (decompose iw s).us, uptime, cs]
      = spec_plain_text (decompose iw s) uptime cs ++ "\n".toList := by
  rw [vformat_plain, toUShort_of_lt _ (decompose_days_lt iw s),
    toUChar_of_lt _ (decompose_hours_lt iw s), toUChar_of_lt _ (decompose_minutes_lt iw s),
    toULong_of_lt _ (decompose_us_lt iw s), toULong_of_lt _ hu, toULong_of_lt _ hc]
  simp only [spec_plain_text, List.append_assoc]
  rfl

/-- The text of line 117 with the conversions resolved. -/
theorem vformat_json_eq (iw : IntWidth) (s : Nat) :
    vformat json_format [(decompose iw s).days, (decompose iw s).hours,
        (decompose iw s).minutes, (decompose iw s).us]
      = spec_json_text (decompose iw s) := by
  rw [vformat_json, toUShort_of_lt _ (decompose_days_lt iw s),
    toUChar_of_lt _ (decompose_hours_lt iw s), toUChar_of_lt _ (decompose_minutes_lt iw s),
    toULong_of_lt _ (decompose_us_lt iw s)]
  rfl

theorem literal_ne_NUL (l : List Char) (h : l.all (fun c => c ≠ NUL) = true) :
    ∀ c ∈ l, c ≠ NUL := by
  intro c hc
  have := List.all_eq_true.mp h c hc
  simpa using this

theorem append_ne_NUL (l1 l2 : List Char) (h1 : ∀ c ∈ l1, c ≠ NUL) (h2 : ∀ c ∈ l2, c ≠ NUL) :
    ∀ c ∈ l1 ++ l2, c ≠ NUL := by
  intro c hc
  rcases List.mem_append.mp hc with h | h
  · exact h1 c h
  · exact h2 c h

/-- The plain text contains no NUL. -/
theorem spec_plain_text_ne_NUL (d : Decomposition) (raw wall : Nat) :
    ∀ c ∈ spec_plain_text d raw wall ++ "\n".toList, c ≠ NUL := by
  unfold spec_plain_text
  repeat first
    | apply append_ne_NUL
    | apply decimal_ne_NUL
    | exact literal_ne_NUL _ (by decide)

/-- The JSON-like text contains no NUL. -/
theorem spec_json_text_ne_NUL (d : Decomposition) : ∀ c ∈ spec_json_text d, c ≠ NUL := by
  unfold spec_json_text
  repeat first
    | apply append_ne_NUL
    | apply decimal_ne_NUL
    | exact literal_ne_NUL _ (by decide)

theorem strlen_not_acceptable_msg : strlen not_acceptable_msg = 56 := by decide

theorem take_not_acceptable_msg : not_acceptable_msg.take 56 = spec_not_acceptable_text := by
  decide

/-- The handler in the plain-text branch. -/
theorem res_get_handler_plain (iw : IntWidth) (R : RestTypes) (N : Nat) (st : State) (cs : Nat)
    (request : Request) (response : Response) (buffer : List Char) (ps : Nat) (off : Int)
    (ha : get_header_accept iw request (UINT_MAX iw) = UINT_MAX iw
      ∨ get_header_accept iw request (UINT_MAX iw) = R.TEXT_PLAIN) :
    res_get_handler iw R N st cs request response buffer ps off =
      { state := st
        response := set_header_max_age (set_response_payload
          (set_header_content_type response R.TEXT_PLAIN)
          (snprintf buffer N (vformat plain_format
            [(decompose iw (source_seconds st cs)).days, (decompose iw (source_seconds st cs)).hours,
             (decompose iw (source_seconds st cs)).minutes, (decompose iw (source_seconds st cs)).us,
             st.uptime_seconds, cs]))
          (strlen (snprintf buffer N (vformat plain_format
            [(decompose iw (source_seconds st cs)).days, (decompose iw (source_seconds st cs)).hours,
             (decompose iw (source_seconds st cs)).minutes, (decompose iw (source_seconds st cs)).us,
             st.uptime_seconds, cs])))) MAX_AGE
        buffer := snprintf buffer N (vformat plain_format
            [(decompose iw (source_seconds st cs)).days, (decompose iw (source_seconds st cs)).hours,
             (decompose iw (source_seconds st cs)).minutes, (decompose iw (source_seconds st cs)).us,
             st.uptime_seconds, cs]) } := by
  unfold res_get_handler
  simp only [if_pos ha]

/-- The handler in the JSON branch. -/
theorem res_get_handler_json (iw : IntWidth) (R : RestTypes) (N : Nat) (st : State) (cs : Nat)
    (request : Request) (response : Response) (buffer : List Char) (ps : Nat) (off : Int)
    (ha : ¬ (get_header_accept iw request (UINT_MAX iw) = UINT_MAX iw
      ∨ get_header_accept iw request (UINT_MAX iw) = R.TEXT_PLAIN))
    (hj : get_header_accept iw request (UINT_MAX iw) = R.APPLICATION_JSON) :
    res_get_handler iw R N st cs request response buffer ps off =
      { state := st
        response := set_header_max_age (set_response_payload
          (set_header_content_type response R.APPLICATION_JSON)
          (snprintf buffer N (vformat json_format
            [(decompose iw (source_seconds st cs)).days, (decompose iw (source_seconds st cs)).hours,
             (decompose iw (source_seconds st cs)).minutes, (decompose iw (source_seconds st cs)).us]))
          (strlen (snprintf buffer N (vformat json_format
            [(decompose iw (source_seconds st cs)).days, (decompose iw (source_seconds st cs)).hours,
             (decompose iw (source_seconds st cs)).minutes,
             (decompose iw (source_seconds st cs)).us])))) MAX_AGE
        buffer := snprintf buffer N (vformat json_format
            [(decompose iw (source_seconds st cs)).days, (decompose iw (source_seconds st cs)).hours,
             (decompose iw (source_seconds st cs)).minutes,
             (decompose iw (source_seconds st cs)).us]) } := by
  unfold res_get_handler
  simp only [if_neg ha, if_pos hj]

/-- The handler in the last branch. -/
theorem res_get_handler_other (iw : IntWidth) (R : RestTypes) (N : Nat) (st : State) (cs : Nat)
    (request : Request) (response : Response) (buffer : List Char) (ps : Nat) (off : Int)
    (ha : ¬ (get_header_accept iw request (UINT_MAX iw) = UINT_MAX iw
      ∨ get_header_accept iw request (UINT_MAX iw) = R.TEXT_PLAIN))
    (hj : ¬ get_header_accept iw request (UINT_MAX iw) = R.APPLICATION_JSON) :
    res_get_handler iw R N st cs request response buffer ps off =
      { state := st
        response := set_header_max_age (set_response_payload
          (set_response_status response REST_status_NOT_ACCEPTABLE)
          not_acceptable_msg (strlen not_acceptable_msg)) MAX_AGE
        buffer := buffer } := by
  unfold res_get_handler
  simp only [if_neg ha, if_neg hj]

/-! ## The claims -/

/-- C1, at the input where the code departs from it: with a 16-bit `int`, ten
hours of uptime (36000 s) are decomposed into 0 days, 10 hours, 68 minutes and
61456 seconds, because `hours * (60*60)` = 36000 does not fit in `int`; the
claim asks for 10 hours, 0 minutes and 0 seconds. -/
theorem decompose_w16_ten_hours :
    decompose IntWidth.w16 36000 = { days := 0, hours := 10, minutes := 68, us := 61456 } ∧
    (decompose IntWidth.w16 36000).minutes ≠ 36000 % 3600 / 60 ∧
    (decompose IntWidth.w16 36000).us ≠ 36000 % 60 := by
  decide

/-- C2: for samples `last` and `now` in `[0, 65535]` the value added to the tick
delta is `now - last` when `now > last` and `(65535 - last) + now` otherwise,
it lies in `[0, 65535]` (neither negative nor wrapped), and the tick delta
after the addition is the old one plus this value in 16-bit arithmetic. -/
theorem rtimer_increment_wraparound (iw : IntWidth) (last now : Nat)
    (hl : last ≤ 65535) (hn : now ≤ 65535) :
    rtimer_increment iw last now
        = (if now > last then (now : Int) - last else (65535 - (last : Int)) + now) ∧
    0 ≤ rtimer_increment iw last now ∧ rtimer_increment iw last now ≤ 65535 ∧
    ∀ delta : Nat, rtimer_delta_incremented iw delta last now
        = (delta + (rtimer_increment iw last now).toNat) % 65536 := by
  have h := rtimer_increment_eq iw last now hl hn
  refine ⟨h, ?_, ?_, ?_⟩
  · rw [h]; split <;> omega
  · rw [h]; split <;> omega
  · intro delta
    unfold rtimer_delta_incremented
    rw [toUShort_wrapPromotedUShort, h]
    unfold toUShort
    split <;> omega

/-- C2 at `last = 65534`, `now = 2`: the increment is exactly 3 ticks. -/
theorem rtimer_increment_wraparound_witness :
    rtimer_increment IntWidth.w16 65534 2 = 3 := by
  have h := (rtimer_increment_wraparound IntWidth.w16 65534 2 (by decide) (by decide)).1
  rw [h]; decide

/-- C3, at the input where the code departs from it: from `last = 65535` to
`now = 0` the timer has advanced by one tick, the cyclic distance
`(0 - 65535) mod 65536` is 1, and the step adds 0 ticks. -/
theorem rtimer_increment_one_tick_wrap (iw : IntWidth) :
    rtimer_increment iw 65535 0 = 0 ∧ ((0 : Int) - 65535) % 65536 = 1 ∧
    rtimer_delta_incremented iw 0 65535 0 = 0 := by
  cases iw <;> decide

/-- C4 as stated fails when the 32-bit counter overflows: from
`uptime_seconds = 4294967295` a step that converts one second leaves 0. -/
theorem uptime_seconds_overflow :
    ¬ ((State.mk 4294967295 1 0 0 true).uptime_seconds
        ≤ (uptime_step IntWidth.w16 7812 (State.mk 4294967295 1 0 0 true) 7812).uptime_seconds) := by
  decide

/-- C4, amended: for every state and every sample, when adding the elapsed
seconds does not overflow the 32-bit counter, `uptime_seconds` after the pass
is at least its value before. -/
theorem uptime_seconds_monotone (iw : IntWidth) (T : Nat) (st : State) (sample : Nat)
    (h : st.uptime_seconds
        + elapsed_seconds T
            (rtimer_delta_incremented iw st.rtimer_delta st.rtimer_last (toUShort sample))
        < 4294967296) :
    st.uptime_seconds ≤ (uptime_step iw T st sample).uptime_seconds := by
  have hd := rtimer_delta_incremented_lt iw st.rtimer_delta st.rtimer_last (toUShort sample)
  rw [elapsed_seconds_eq T _ hd] at h
  rw [uptime_step_eq]
  show st.uptime_seconds ≤ ite _ _ _
  split
  · rw [Nat.mod_eq_of_lt h]; exact Nat.le_add_right _ _
  · exact le_refl _

/-- C4, amended, at a state with 5 seconds and 7000 pending ticks. -/
theorem uptime_seconds_monotone_witness :
    (State.mk 5 1 7000 0 true).uptime_seconds
      ≤ (uptime_step IntWidth.w16 7812 (State.mk 5 1 7000 0 true) 1000).uptime_seconds :=
  uptime_seconds_monotone IntWidth.w16 7812 (State.mk 5 1 7000 0 true) 1000 (by decide)

/-- C5: for every state, every sample and every `RTIMER_SECOND > 0`, the tick
delta stored by one pass is strictly less than `RTIMER_SECOND`. -/
theorem rtimer_delta_subsecond (iw : IntWidth) (T : Nat) (st : State) (sample : Nat)
    (hT : 0 < T) : (uptime_step iw T st sample).rtimer_delta < T := by
  rw [uptime_step_eq]
  show ite _ _ _ < T
  split
  · exact Nat.mod_lt _ hT
  · rename_i hz
    exact (Nat.div_eq_zero_iff hT).mp (Nat.eq_zero_of_not_pos hz)

/-- C5 at a state whose tick delta is not normalised (70000 pending ticks). -/
theorem rtimer_delta_subsecond_witness :
    (uptime_step IntWidth.w32 7812 (State.mk 5 1 70000 0 true) 1000).rtimer_delta < 7812 :=
  rtimer_delta_subsecond IntWidth.w32 7812 (State.mk 5 1 70000 0 true) 1000 (by decide)

/-- C6: for every accept value, given a response that does not carry 406 when
the handler is called, the status after `res_get_handler` is 406 if and only if
the accept value is neither `(unsigned int)-1`, `REST.type.TEXT_PLAIN` nor
`REST.type.APPLICATION_JSON`; in that case the payload is the fixed message and
its length is the length of the message. -/
theorem not_acceptable_iff (iw : IntWidth) (R : RestTypes) (N : Nat) (st : State) (cs : Nat)
    (request : Request) (response : Response) (buffer : List Char) (ps : Nat) (off : Int)
    (h0 : response.status ≠ REST_status_NOT_ACCEPTABLE) :
    ((res_get_handler iw R N st cs request response buffer ps off).response.status
        = REST_status_NOT_ACCEPTABLE
      ↔ (get_header_accept iw request (UINT_MAX iw) ≠ UINT_MAX iw
          ∧ get_header_accept iw request (UINT_MAX iw) ≠ R.TEXT_PLAIN
          ∧ get_header_accept iw request (UINT_MAX iw) ≠ R.APPLICATION_JSON)) ∧
    ((get_header_accept iw request (UINT_MAX iw) ≠ UINT_MAX iw
          ∧ get_header_accept iw request (UINT_MAX iw) ≠ R.TEXT_PLAIN
          ∧ get_header_accept iw request (UINT_MAX iw) ≠ R.APPLICATION_JSON) →
      (res_get_handler iw R N st cs request response buffer ps off).response.payload
          = spec_not_acceptable_text ∧
      (res_get_handler iw R N st cs request response buffer ps off).response.payload_length
          = spec_not_acceptable_text.length) := by
  by_cases ha : get_header_accept iw request (UINT_MAX iw) = UINT_MAX iw
      ∨ get_header_accept iw request (UINT_MAX iw) = R.TEXT_PLAIN
  · rw [res_get_handler_plain iw R N st cs request response buffer ps off ha]
    constructor
    · constructor
      · intro h; exact absurd h h0
      · rintro ⟨h1, h2, _⟩; rcases ha with h | h
        · exact absurd h h1
        · exact absurd h h2
    · rintro ⟨h1, h2, _⟩; rcases ha with h | h
      · exact absurd h h1
      · exact absurd h h2
  · by_cases hj : get_header_accept iw request (UINT_MAX iw) = R.APPLICATION_JSON
    · rw [res_get_handler_json iw R N st cs request response buffer ps off ha hj]
      constructor
      · constructor
        · intro h; exact absurd h h0
        · rintro ⟨_, _, h3⟩; exact absurd hj h3
      · rintro ⟨_, _, h3⟩; exact absurd hj h3
    · rw [res_get_handler_other iw R N st cs request response buffer ps off ha hj]
      have hne := not_or.mp ha
      refine ⟨⟨fun _ => ⟨hne.1, hne.2, hj⟩, fun _ => rfl⟩, fun _ => ⟨?_, ?_⟩⟩
      · show not_acceptable_msg.take (strlen not_acceptable_msg) = _
        rw [strlen_not_acceptable_msg, take_not_acceptable_msg]
      · show strlen not_acceptable_msg = _
        rw [strlen_not_acceptable_msg]; decide

/-- C6 at a request whose Accept option is 40 (neither 0 = text/plain nor
50 = application/json): the status is 406 and the payload is the message. -/
theorem not_acceptable_iff_witness :
    (res_get_handler IntWidth.w32 (RestTypes.mk 0 50) 64 State.initial 0
        (Request.mk (some 40)) Response.fresh [] 64 0).response.status
      = REST_status_NOT_ACCEPTABLE ∧
    (res_get_handler IntWidth.w32 (RestTypes.mk 0 50) 64 State.initial 0
        (Request.mk (some 40)) Response.fresh [] 64 0).response.payload
      = spec_not_acceptable_text := by
  have h := not_acceptable_iff IntWidth.w32 (RestTypes.mk 0 50) 64 State.initial 0
    (Request.mk (some 40)) Response.fresh [] 64 0 (by decide)
  exact ⟨h.1.mpr (by decide), (h.2 (by decide)).1⟩

/-- C8 as stated fails: in wall-clock mode (`use_rtimer = 0`, `uptime_seconds`
still 0) with `clock_seconds()` = 90061 the payload is
`1 d 1 h 1 m 1 s (0/90061 s)` followed by a newline, where the claim has
`1 d 1 h 1 m 1 s (90061/90061 s)`. -/
theorem plain_payload_wall_clock_mode :
    (res_get_handler IntWidth.w32 (RestTypes.mk 0 50) 64 (State.mk 0 0 0 0 false) 90061
        (Request.mk none) Response.fresh [] 64 0).response.payload
      = "1 d 1 h 1 m 1 s (0/90061 s)\n".toList ∧
    spec_plain_text (spec_decompose (source_seconds (State.mk 0 0 0 0 false) 90061))
        (source_seconds (State.mk 0 0 0 0 false) 90061) 90061
      = "1 d 1 h 1 m 1 s (90061/90061 s)".toList ∧
    (res_get_handler IntWidth.w32 (RestTypes.mk 0 50) 64 (State.mk 0 0 0 0 false) 90061
        (Request.mk none) Response.fresh [] 64 0).response.payload
      ≠ spec_plain_text (spec_decompose (source_seconds (State.mk 0 0 0 0 false) 90061))
        (source_seconds (State.mk 0 0 0 0 false) 90061) 90061 := by
  decide

/-- C8, amended: in both modes, when the accept value is `(unsigned int)-1` or
`REST.type.TEXT_PLAIN` and the text with its terminating NUL fits
`REST_MAX_CHUNK_SIZE`, the payload is exactly
`<days> d <hours> h <minutes> m <seconds> s (<uptime_seconds>/<clock_seconds> s)`
followed by a newline, in decimal, where days, hours, minutes and seconds are
the decomposition of the source value (`s / 86400`, `(s mod 86400) / 3600`,
`(s mod 3600) / 60`, `s mod 60`) and the first number in the parentheses is
`uptime_seconds` in both modes.  This is stated for the source values whose
product `hours * (60*60)` fits in `int`: every value with a 32-bit `int`, the
values less than ten hours into the day with a 16-bit `int`. -/
theorem plain_payload (iw : IntWidth) (R : RestTypes) (N : Nat) (st : State) (cs : Nat)
    (request : Request) (response : Response) (buffer : List Char) (ps : Nat) (off : Int)
    (ha : get_header_accept iw request (UINT_MAX iw) = UINT_MAX iw
      ∨ get_header_accept iw request (UINT_MAX iw) = R.TEXT_PLAIN)
    (hu : st.uptime_seconds < 4294967296) (hc : cs < 4294967296)
    (hprod : iw = IntWidth.w32 ∨ source_seconds st cs % 86400 < 36000)
    (hfit : (spec_plain_text (spec_decompose (source_seconds st cs)) st.uptime_seconds cs
      ++ "\n".toList).length < N) :
    (res_get_handler iw R N st cs request response buffer ps off).response.payload
      = spec_plain_text (spec_decompose (source_seconds st cs)) st.uptime_seconds cs
        ++ "\n".toList := by
  have hd := decompose_eq_spec iw (source_seconds st cs) (source_seconds_lt st cs hu hc) hprod
  rw [res_get_handler_plain iw R N st cs request response buffer ps off ha,
    vformat_plain_eq iw _ _ _ hu hc, hd]
  have h := snprintf_fits buffer _ N (spec_plain_text_ne_NUL _ _ _) hfit
  show (snprintf buffer N _).take (strlen (snprintf buffer N _)) = _
  rw [h.1, h.2]

/-- C8, amended, in tick mode with `uptime_seconds` = 90061 and
`clock_seconds()` = 90062. -/
theorem plain_payload_witness :
    (res_get_handler IntWidth.w32 (RestTypes.mk 0 50) 64 (State.mk 90061 1 0 0 true) 90062
        (Request.mk (some 0)) Response.fresh [] 64 0).response.payload
      = spec_plain_text (spec_decompose (source_seconds (State.mk 90061 1 0 0 true) 90062))
          90061 90062 ++ "\n".toList :=
  plain_payload IntWidth.w32 (RestTypes.mk 0 50) 64 (State.mk 90061 1 0 0 true) 90062
    (Request.mk (some 0)) Response.fresh [] 64 0 (by decide) (by decide) (by decide)
    (by decide) (by decide)

/-- The JSON-like payload where the product `hours * (60*60)` fits in `int`:
when the accept value is `REST.type.APPLICATION_JSON` (an identifier other than
`(unsigned int)-1` and `REST.type.TEXT_PLAIN`) and the text with its
terminating NUL fits `REST_MAX_CHUNK_SIZE`, the payload is exactly the text of
the specification for the decomposition of the source value. -/
theorem json_payload_exact (iw : IntWidth) (R : RestTypes) (N : Nat) (st : State) (cs : Nat)
    (request : Request) (response : Response) (buffer : List Char) (ps : Nat) (off : Int)
    (hj : get_header_accept iw request (UINT_MAX iw) = R.APPLICATION_JSON)
    (h1 : R.APPLICATION_JSON ≠ UINT_MAX iw) (h2 : R.APPLICATION_JSON ≠ R.TEXT_PLAIN)
    (hu : st.uptime_seconds < 4294967296) (hc : cs < 4294967296)
    (hprod : iw = IntWidth.w32 ∨ source_seconds st cs % 86400 < 36000)
    (hfit : (spec_json_text (spec_decompose (source_seconds st cs))).length < N) :
    (res_get_handler iw R N st cs request response buffer ps off).response.payload
      = spec_json_text (spec_decompose (source_seconds st cs)) := by
  have hd := decompose_eq_spec iw (source_seconds st cs) (source_seconds_lt st cs hu hc) hprod
  have ha : ¬ (get_header_accept iw request (UINT_MAX iw) = UINT_MAX iw
      ∨ get_header_accept iw request (UINT_MAX iw) = R.TEXT_PLAIN) := by
    rw [hj]; exact not_or.mpr ⟨h1, h2⟩
  rw [res_get_handler_json iw R N st cs request response buffer ps off ha hj,
    vformat_json_eq iw _, hd]
  have h := snprintf_fits buffer _ N (spec_json_text_ne_NUL _) hfit
  show (snprintf buffer N _).take (strlen (snprintf buffer N _)) = _
  rw [h.1, h.2]

/-- C9, at the input where the code departs from it: with a 16-bit `int`,
`uptime_seconds` = 36000 (ten hours) and Accept 50 = application/json, the
payload is `{'uptime':'0 d 10 h 68 m 61456 s'}`, where the decomposition of the
source value gives `{'uptime':'0 d 10 h 0 m 0 s'}`.  The defect is the one of
C1, the product `hours * (60*60)` of line 105 computed in `int`. -/
theorem json_payload_w16_ten_hours :
    (res_get_handler IntWidth.w16 (RestTypes.mk 0 50) 64 (State.mk 36000 1 0 0 true) 36000
        (Request.mk (some 50)) Response.fresh [] 64 0).response.payload
      = "\x7b\x27uptime\x27:\x270 d 10 h 68 m 61456 s\x27\x7d".toList ∧
    spec_json_text (spec_decompose (source_seconds (State.mk 36000 1 0 0 true) 36000))
      = "\x7b\x27uptime\x27:\x270 d 10 h 0 m 0 s\x27\x7d".toList ∧
    (res_get_handler IntWidth.w16 (RestTypes.mk 0 50) 64 (State.mk 36000 1 0 0 true) 36000
        (Request.mk (some 50)) Response.fresh [] 64 0).response.payload
      ≠ spec_json_text (spec_decompose (source_seconds (State.mk 36000 1 0 0 true) 36000)) := by
  decide

/-- C10: for every accept value, every mode and every counter value, the
response of `res_get_handler` carries max-age 60. -/
theorem max_age_always (iw : IntWidth) (R : RestTypes) (N : Nat) (st : State) (cs : Nat)
    (request : Request) (response : Response) (buffer : List Char) (ps : Nat) (off : Int) :
    (res_get_handler iw R N st cs request response buffer ps off).response.max_age = some 60 := by
  by_cases ha : get_header_accept iw request (UINT_MAX iw) = UINT_MAX iw
      ∨ get_header_accept iw request (UINT_MAX iw) = R.TEXT_PLAIN
  · rw [res_get_handler_plain iw R N st cs request response buffer ps off ha]; rfl
  · by_cases hj : get_header_accept iw request (UINT_MAX iw) = R.APPLICATION_JSON
    · rw [res_get_handler_json iw R N st cs request response buffer ps off ha hj]; rfl
    · rw [res_get_handler_other iw R N st cs request response buffer ps off ha hj]; rfl

/-! ## Buffer lemmas -/

/-- `snprintf` with size `n` leaves the memory from offset `n` on as it was. -/
theorem snprintf_drop (buffer text : List Char) (n : Nat) :
    (snprintf buffer n text).drop n = buffer.drop n := by
  unfold snprintf
  split
  · rfl
  · rename_i hn
    have hlen : (text.take (n - 1) ++ [NUL]).length ≤ n := by
      simp only [List.length_append, List.length_take, List.length_singleton]
      omega
    show ((text.take (n - 1) ++ [NUL])
      ++ buffer.drop (text.take (n - 1) ++ [NUL]).length).drop n = _
    rw [List.drop_append_eq_append_drop, List.drop_of_length_le hlen, List.nil_append,
      List.drop_drop]
    congr 1
    omega

/-- The length of a C string that has a NUL at offset `a.length` at the latest. -/
theorem strlen_append_NUL_le (a rest : List Char) : strlen (a ++ NUL :: rest) ≤ a.length := by
  unfold strlen
  induction a with
  | nil => simp
  | cons c a ih =>
    rw [List.cons_append, List.takeWhile_cons]
    split
    · simp only [List.length_cons]; omega
    · simp

/-- After `snprintf` with a size `n > 0` the string in the memory is shorter
than `n`. -/
theorem strlen_snprintf_le (buffer text : List Char) (n : Nat) (hn : 0 < n) :
    strlen (snprintf buffer n text) ≤ n - 1 := by
  have hn0 : n ≠ 0 := by omega
  have hs : snprintf buffer n text
      = text.take (n - 1) ++ NUL :: buffer.drop (text.take (n - 1) ++ [NUL]).length := by
    simp only [snprintf, hn0, if_false, List.append_assoc, List.singleton_append]
  rw [hs]
  exact le_trans (strlen_append_NUL_le _ _) (by simp only [List.length_take]; omega)

/-- A text without NUL is stored up to its first `n - 1` characters. -/
theorem snprintf_truncates (buffer text : List Char) (n : Nat)
    (hnul : ∀ c ∈ text, c ≠ NUL) (hn : 0 < n) :
    (snprintf buffer n text).take (strlen (snprintf buffer n text)) = text.take (n - 1) := by
  have hn0 : n ≠ 0 := by omega
  have hs : snprintf buffer n text
      = text.take (n - 1) ++ NUL :: buffer.drop (text.take (n - 1) ++ [NUL]).length := by
    simp only [snprintf, hn0, if_false, List.append_assoc, List.singleton_append]
  have hnul1 : ∀ c ∈ text.take (n - 1), c ≠ NUL :=
    fun c hc => hnul c (List.mem_of_mem_take hc)
  rw [hs, strlen_append_NUL _ _ hnul1]
  exact List.take_left' rfl

/-- The formatted plain text contains no NUL, whatever the arguments. -/
theorem vformat_plain_ne_NUL (a b c d e f : Nat) :
    ∀ x ∈ vformat plain_format [a, b, c, d, e, f], x ≠ NUL := by
  rw [vformat_plain]
  repeat first
    | apply append_ne_NUL
    | apply decimal_ne_NUL
    | exact literal_ne_NUL _ (by decide)

/-- The formatted JSON-like text contains no NUL, whatever the arguments. -/
theorem vformat_json_ne_NUL (a b c d : Nat) :
    ∀ x ∈ vformat json_format [a, b, c, d], x ≠ NUL := by
  rw [vformat_json]
  repeat first
    | apply append_ne_NUL
    | apply decimal_ne_NUL
    | exact literal_ne_NUL _ (by decide)

/-- The memory of the buffer from offset `REST_MAX_CHUNK_SIZE` on is the same
before and after the handler, in every branch. -/
theorem res_get_handler_buffer_drop (iw : IntWidth) (R : RestTypes) (N : Nat) (st : State)
    (cs : Nat) (request : Request) (response : Response) (buffer : List Char) (ps : Nat)
    (off : Int) :
    (res_get_handler iw R N st cs request response buffer ps off).buffer.drop N
      = buffer.drop N := by
  by_cases ha : get_header_accept iw request (UINT_MAX iw) = UINT_MAX iw
      ∨ get_header_accept iw request (UINT_MAX iw) = R.TEXT_PLAIN
  · rw [res_get_handler_plain iw R N st cs request response buffer ps off ha]
    exact snprintf_drop _ _ _
  · by_cases hj : get_header_accept iw request (UINT_MAX iw) = R.APPLICATION_JSON
    · rw [res_get_handler_json iw R N st cs request response buffer ps off ha hj]
      exact snprintf_drop _ _ _
    · rw [res_get_handler_other iw R N st cs request response buffer ps off ha hj]

/-- The payload of the plain-text branch: the first `REST_MAX_CHUNK_SIZE - 1`
characters of the text. -/
theorem res_get_handler_plain_payload (iw : IntWidth) (R : RestTypes) (N : Nat) (st : State)
    (cs : Nat) (request : Request) (response : Response) (buffer : List Char) (ps : Nat)
    (off : Int)
    (ha : get_header_accept iw request (UINT_MAX iw) = UINT_MAX iw
      ∨ get_header_accept iw request (UINT_MAX iw) = R.TEXT_PLAIN)
    (hu : st.uptime_seconds < 4294967296) (hc : cs < 4294967296) (hN : 0 < N) :
    (res_get_handler iw R N st cs request response buffer ps off).response.payload
      = (spec_plain_text (decompose iw (source_seconds st cs)) st.uptime_seconds cs
          ++ "\n".toList).take (N - 1) := by
  rw [res_get_handler_plain iw R N st cs request response buffer ps off ha,
    vformat_plain_eq iw _ _ _ hu hc]
  exact snprintf_truncates buffer _ N (spec_plain_text_ne_NUL _ _ _) hN

/-- The payload of the JSON branch: the first `REST_MAX_CHUNK_SIZE - 1`
characters of the text. -/
theorem res_get_handler_json_payload (iw : IntWidth) (R : RestTypes) (N : Nat) (st : State)
    (cs : Nat) (request : Request) (response : Response) (buffer : List Char) (ps : Nat)
    (off : Int)
    (ha : ¬ (get_header_accept iw request (UINT_MAX iw) = UINT_MAX iw
      ∨ get_header_accept iw request (UINT_MAX iw) = R.TEXT_PLAIN))
    (hj : get_header_accept iw request (UINT_MAX iw) = R.APPLICATION_JSON) (hN : 0 < N) :
    (res_get_handler iw R N st cs request response buffer ps off).response.payload
      = (spec_json_text (decompose iw (source_seconds st cs))).take (N - 1) := by
  rw [res_get_handler_json iw R N st cs request response buffer ps off ha hj,
    vformat_json_eq iw _]
  exact snprintf_truncates buffer _ N (spec_json_text_ne_NUL _) hN

/-- The payload length of the two text branches is below `REST_MAX_CHUNK_SIZE`. -/
theorem res_get_handler_payload_length (iw : IntWidth) (R : RestTypes) (N : Nat) (st : State)
    (cs : Nat) (request : Request) (response : Response) (buffer : List Char) (ps : Nat)
    (off : Int) (hN : 0 < N)
    (hb : get_header_accept iw request (UINT_MAX iw) = UINT_MAX iw
      ∨ get_header_accept iw request (UINT_MAX iw) = R.TEXT_PLAIN
      ∨ get_header_accept iw request (UINT_MAX iw) = R.APPLICATION_JSON) :
    (res_get_handler iw R N st cs request response buffer ps off).response.payload_length
      ≤ N - 1 := by
  by_cases ha : get_header_accept iw request (UINT_MAX iw) = UINT_MAX iw
      ∨ get_header_accept iw request (UINT_MAX iw) = R.TEXT_PLAIN
  · rw [res_get_handler_plain iw R N st cs request response buffer ps off ha]
    exact strlen_snprintf_le _ _ _ hN
  · have hj : get_header_accept iw request (UINT_MAX iw) = R.APPLICATION_JSON := by
      rcases hb with h | h | h
      · exact absurd (Or.inl h) ha
      · exact absurd (Or.inr h) ha
      · exact h
    rw [res_get_handler_json iw R N st cs request response buffer ps off ha hj]
    exact strlen_snprintf_le _ _ _ hN

/-- The tick delta after the increment, for samples of type `rtimer_clock_t`. -/
theorem rtimer_delta_incremented_eq (iw : IntWidth) (delta last now : Nat)
    (hl : last ≤ 65535) (hn : now ≤ 65535) :
    rtimer_delta_incremented iw delta last now
      = (delta + (if now > last then now - last else (65535 - last) + now)) % 65536 := by
  unfold rtimer_delta_incremented
  rw [toUShort_wrapPromotedUShort, rtimer_increment_eq iw last now hl hn]
  unfold toUShort
  split <;> omega

/-! ## The claims, continued -/

/-- C11 as stated fails: with `preferred_size` = 16 and `REST_MAX_CHUNK_SIZE` =
64 the plain-text branch stores 33 bytes in the buffer, changes the memory
beyond offset 16 and reports a payload of 32 bytes. -/
theorem preferred_size_exceeded :
    ¬ ((res_get_handler IntWidth.w32 (RestTypes.mk 0 50) 64 (State.mk 90061 1 0 0 true) 90062
        (Request.mk none) Response.fresh (List.replicate 64 'x') 16 0).response.payload_length
        ≤ 16) ∧
    (res_get_handler IntWidth.w32 (RestTypes.mk 0 50) 64 (State.mk 90061 1 0 0 true) 90062
        (Request.mk none) Response.fresh (List.replicate 64 'x') 16 0).buffer.drop 16
      ≠ (List.replicate 64 'x').drop 16 := by
  decide

/-- C11, amended: the bound of the formatting is `REST_MAX_CHUNK_SIZE`, the size
given to `snprintf`, not `preferred_size`.  For every `REST_MAX_CHUNK_SIZE`,
every `preferred_size` and every counter and wall-clock value the handler leaves
the buffer from offset `REST_MAX_CHUNK_SIZE` on as it was; when
`REST_MAX_CHUNK_SIZE` is positive the payload length of the text/plain and JSON
branches is at most `REST_MAX_CHUNK_SIZE - 1`, and the payload is the formatted
text cut after `REST_MAX_CHUNK_SIZE - 1` characters. -/
theorem buffer_safety_chunk_size (iw : IntWidth) (R : RestTypes) (N : Nat) (st : State)
    (cs : Nat) (request : Request) (response : Response) (buffer : List Char) (ps : Nat)
    (off : Int) :
    (res_get_handler iw R N st cs request response buffer ps off).buffer.drop N
        = buffer.drop N ∧
    (0 < N →
      (get_header_accept iw request (UINT_MAX iw) = UINT_MAX iw
        ∨ get_header_accept iw request (UINT_MAX iw) = R.TEXT_PLAIN
        ∨ get_header_accept iw request (UINT_MAX iw) = R.APPLICATION_JSON) →
      (res_get_handler iw R N st cs request response buffer ps off).response.payload_length
        ≤ N - 1) ∧
    (0 < N → st.uptime_seconds < 4294967296 → cs < 4294967296 →
      (get_header_accept iw request (UINT_MAX iw) = UINT_MAX iw
        ∨ get_header_accept iw request (UINT_MAX iw) = R.TEXT_PLAIN) →
      (res_get_handler iw R N st cs request response buffer ps off).response.payload
        = (spec_plain_text (decompose iw (source_seconds st cs)) st.uptime_seconds cs
            ++ "\n".toList).take (N - 1)) ∧
    (0 < N →
      ¬ (get_header_accept iw request (UINT_MAX iw) = UINT_MAX iw
        ∨ get_header_accept iw request (UINT_MAX iw) = R.TEXT_PLAIN) →
      get_header_accept iw request (UINT_MAX iw) = R.APPLICATION_JSON →
      (res_get_handler iw R N st cs request response buffer ps off).response.payload
        = (spec_json_text (decompose iw (source_seconds st cs))).take (N - 1)) :=
  ⟨res_get_handler_buffer_drop iw R N st cs request response buffer ps off,
   fun hN hb => res_get_handler_payload_length iw R N st cs request response buffer ps off hN hb,
   fun hN hu hc ha =>
     res_get_handler_plain_payload iw R N st cs request response buffer ps off ha hu hc hN,
   fun hN ha hj =>
     res_get_handler_json_payload iw R N st cs request response buffer ps off ha hj hN⟩

/-- C11, amended, with `REST_MAX_CHUNK_SIZE` = 16: the 32 characters of the
plain text are cut to a payload of at most 15. -/
theorem buffer_safety_chunk_size_witness :
    (res_get_handler IntWidth.w32 (RestTypes.mk 0 50) 16 (State.mk 90061 1 0 0 true) 90062
        (Request.mk none) Response.fresh (List.replicate 64 'x') 64 0).response.payload_length
      ≤ 16 - 1 :=
  (buffer_safety_chunk_size IntWidth.w32 (RestTypes.mk 0 50) 16 (State.mk 90061 1 0 0 true)
    90062 (Request.mk none) Response.fresh (List.replicate 64 'x') 64 0).2.1
    (by decide) (by decide)

/-- C12: `res_system_uptime_init(use_rt)` with `use_rt` non-zero sets
`use_rtimer` to 1 and starts `uptime_process`; with `use_rt` zero it sets
`use_rtimer` to 0 and starts nothing.  The handler then decomposes
`uptime_seconds` in the first case and the value of `clock_seconds()` in the
second: the source value of line 99 is that number, and the payloads of both
text branches carry its decomposition. -/
theorem source_selection (iw : IntWidth) (R : RestTypes) (N : Nat) (st : State)
    (cs : Nat) (request : Request) (response : Response) (buffer : List Char) (ps : Nat)
    (off : Int) (use_rt : Nat) :
    (use_rt ≠ 0 →
      (res_system_uptime_init st use_rt).use_rtimer = 1 ∧
      (res_system_uptime_init st use_rt).process_started = true) ∧
    (use_rt = 0 →
      (res_system_uptime_init st use_rt).use_rtimer = 0 ∧
      (res_system_uptime_init st use_rt).process_started = st.process_started) ∧
    source_seconds (res_system_uptime_init st use_rt) cs
        = (if use_rt ≠ 0 then st.uptime_seconds else cs) ∧
    (0 < N → st.uptime_seconds < 4294967296 → cs < 4294967296 →
      (get_header_accept iw request (UINT_MAX iw) = UINT_MAX iw
        ∨ get_header_accept iw request (UINT_MAX iw) = R.TEXT_PLAIN) →
      (res_get_handler iw R N (res_system_uptime_init st use_rt) cs request response buffer
          ps off).response.payload
        = (spec_plain_text (decompose iw (if use_rt ≠ 0 then st.uptime_seconds else cs))
            st.uptime_seconds cs ++ "\n".toList).take (N - 1)) ∧
    (0 < N →
      ¬ (get_header_accept iw request (UINT_MAX iw) = UINT_MAX iw
        ∨ get_header_accept iw request (UINT_MAX iw) = R.TEXT_PLAIN) →
      get_header_accept iw request (UINT_MAX iw) = R.APPLICATION_JSON →
      (res_get_handler iw R N (res_system_uptime_init st use_rt) cs request response buffer
          ps off).response.payload
        = (spec_json_text (decompose iw (if use_rt ≠ 0 then st.uptime_seconds else cs))).take
            (N - 1)) := by
  have hsrc : source_seconds (res_system_uptime_init st use_rt) cs
      = (if use_rt ≠ 0 then st.uptime_seconds else cs) := by
    unfold source_seconds res_system_uptime_init
    by_cases h : use_rt ≠ 0
    · simp only [if_pos h]; rfl
    · simp only [if_neg h]; rfl
  have hup : (res_system_uptime_init st use_rt).uptime_seconds = st.uptime_seconds := by
    unfold res_system_uptime_init
    split <;> rfl
  refine ⟨?_, ?_, hsrc, ?_, ?_⟩
  · intro h
    unfold res_system_uptime_init
    rw [if_pos h]
    exact ⟨rfl, rfl⟩
  · intro h
    unfold res_system_uptime_init
    rw [if_neg (not_not.mpr h)]
    exact ⟨rfl, rfl⟩
  · intro hN hu hc ha
    rw [res_get_handler_plain_payload iw R N _ cs request response buffer ps off ha
      (by rw [hup]; exact hu) hc hN, hsrc, hup]
  · intro hN ha hj
    rw [res_get_handler_json_payload iw R N _ cs request response buffer ps off ha hj hN, hsrc]

/-- C12 after `res_system_uptime_init(0)` from the initial state, with
`clock_seconds()` = 90061 and Accept 50 = application/json: the mode is
wall-clock, no process is started and the payload is the decomposition of
90061. -/
theorem source_selection_witness :
    (res_system_uptime_init State.initial 0).use_rtimer = 0 ∧
    (res_system_uptime_init State.initial 0).process_started = false ∧
    (res_get_handler IntWidth.w32 (RestTypes.mk 0 50) 64 (res_system_uptime_init State.initial 0)
        90061 (Request.mk (some 50)) Response.fresh [] 64 0).response.payload
      = (spec_json_text (decompose IntWidth.w32 (if 0 ≠ 0 then 0 else 90061))).take (64 - 1) :=
  ⟨((source_selection IntWidth.w32 (RestTypes.mk 0 50) 64 State.initial 90061
      (Request.mk (some 50)) Response.fresh [] 64 0 0).2.1 rfl).1,
   ((source_selection IntWidth.w32 (RestTypes.mk 0 50) 64 State.initial 90061
      (Request.mk (some 50)) Response.fresh [] 64 0 0).2.1 rfl).2,
   (source_selection IntWidth.w32 (RestTypes.mk 0 50) 64 State.initial 90061
      (Request.mk (some 50)) Response.fresh [] 64 0 0).2.2.2.2 (by decide) (by decide) (by decide)⟩

/-- C13: for every request and every shared state, `res_get_handler` leaves the
variables with static storage duration (`uptime_seconds`, `rtimer_delta`,
`rtimer_last`, `use_rtimer`) as they were. -/
theorem handler_frame (iw : IntWidth) (R : RestTypes) (N : Nat) (st : State)
    (cs : Nat) (request : Request) (response : Response) (buffer : List Char) (ps : Nat)
    (off : Int) :
    (res_get_handler iw R N st cs request response buffer ps off).state = st := by
  by_cases ha : get_header_accept iw request (UINT_MAX iw) = UINT_MAX iw
      ∨ get_header_accept iw request (UINT_MAX iw) = R.TEXT_PLAIN
  · rw [res_get_handler_plain iw R N st cs request response buffer ps off ha]
  · by_cases hj : get_header_accept iw request (UINT_MAX iw) = R.APPLICATION_JSON
    · rw [res_get_handler_json iw R N st cs request response buffer ps off ha hj]
    · rw [res_get_handler_other iw R N st cs request response buffer ps off ha hj]

/-- C14 as stated fails when the 32-bit counter overflows: from
`uptime_seconds` = 4294967295 a step with `e` = 1 leaves 0, where the reference
has `uptime + e` = 4294967296. -/
theorem spec_step_overflow :
    (uptime_step IntWidth.w16 7812 (State.mk 4294967295 1 0 0 true) 7812).uptime_seconds = 0 ∧
    (spec_step 7812 (State.mk 4294967295 1 0 0 true) 7812).uptime_seconds = 4294967296 ∧
    uptime_step IntWidth.w16 7812 (State.mk 4294967295 1 0 0 true) 7812
      ≠ spec_step 7812 (State.mk 4294967295 1 0 0 true) 7812 := by
  decide

/-- C14, amended: for every state and sample of the types of the file
(`rtimer_last` and the sample in `[0, 65535]`, `uptime_seconds` below 2^32),
with `d` the 16-bit tick delta after the increment and `e = d / RTIMER_SECOND`,
one step yields `last' = now`, `delta' = d - e * RTIMER_SECOND` and
`uptime' = (uptime + e) mod 2^32`; it is the step of the specification
whenever `uptime + e` does not exceed 2^32 - 1.  With `e` = 0 both `uptime`
and `d` are left as they are. -/
theorem uptime_step_refines_spec (iw : IntWidth) (T : Nat) (st : State) (now : Nat)
    (hl : st.rtimer_last ≤ 65535) (hn : now ≤ 65535) (hu : st.uptime_seconds < 4294967296) :
    uptime_step iw T st now
        = { spec_step T st now with
            uptime_seconds := (spec_step T st now).uptime_seconds % 4294967296 } ∧
    ((spec_step T st now).uptime_seconds < 4294967296 →
      uptime_step iw T st now = spec_step T st now) := by
  have key : uptime_step iw T st now
      = { spec_step T st now with
          uptime_seconds := (spec_step T st now).uptime_seconds % 4294967296 } := by
    rw [uptime_step_eq, toUShort_of_lt now (by omega),
      rtimer_delta_incremented_eq iw _ _ _ hl hn]
    unfold spec_step
    simp only []
    generalize (st.rtimer_delta
      + (if now > st.rtimer_last then now - st.rtimer_last
          else (65535 - st.rtimer_last) + now)) % 65536 = d
    by_cases h : 0 < d / T
    · have hmod : d % T = d - d / T * T := by
        have h1 : d / T * T + d % T = d := Nat.div_add_mod' d T
        omega
      simp only [if_pos h, hmod]
    · have h0 : d / T = 0 := Nat.eq_zero_of_not_pos h
      simp only [h0, lt_irrefl, if_false, Nat.add_zero, Nat.zero_mul, Nat.sub_zero,
        Nat.mod_eq_of_lt hu]
  refine ⟨key, fun hlt => ?_⟩
  rw [key, Nat.mod_eq_of_lt hlt]

/-- C14, amended, at a state with 5 seconds, 7000 pending ticks and
`last` = 65534, for the sample 2. -/
theorem uptime_step_refines_spec_witness :
    uptime_step IntWidth.w16 7812 (State.mk 5 1 7000 65534 true) 2
      = spec_step 7812 (State.mk 5 1 7000 65534 true) 2 :=
  (uptime_step_refines_spec IntWidth.w16 7812 (State.mk 5 1 7000 65534 true) 2
    (by decide) (by decide) (by decide)).2 (by decide)

/-- C15: for every state, every sample and every `RTIMER_SECOND > 0`, with `d`
the 16-bit tick delta after the increment, if `uptime_seconds` does not
overflow then `uptime' * RTIMER_SECOND + delta' = uptime * RTIMER_SECOND + d`:
the remainder of the division is kept in the tick delta.  (The division of
line 55 is undefined for `RTIMER_SECOND` = 0, which the hypothesis excludes; the
equation itself does not depend on it.) -/
theorem ticks_conserved (iw : IntWidth) (T : Nat) (st : State) (sample : Nat)
    (_hT : 0 < T)
    (hno : st.uptime_seconds
        + rtimer_delta_incremented iw st.rtimer_delta st.rtimer_last (toUShort sample) / T
        < 4294967296) :
    (uptime_step iw T st sample).uptime_seconds * T + (uptime_step iw T st sample).rtimer_delta
      = st.uptime_seconds * T
        + rtimer_delta_incremented iw st.rtimer_delta st.rtimer_last (toUShort sample) := by
  rw [uptime_step_eq]
  generalize rtimer_delta_incremented iw st.rtimer_delta st.rtimer_last (toUShort sample) = d at *
  show (ite _ _ _) * T + ite _ _ _ = _
  by_cases h : 0 < d / T
  · rw [if_pos h, if_pos h, Nat.mod_eq_of_lt hno, Nat.add_mul, Nat.add_assoc,
      Nat.div_add_mod' d T]
  · rw [if_neg h, if_neg h]

/-- C15 at a state with 5 seconds and 7000 pending ticks, for a sample that
adds 1000 ticks: 6 * 7812 + 188 = 5 * 7812 + 8000. -/
theorem ticks_conserved_witness :
    (uptime_step IntWidth.w16 7812 (State.mk 5 1 7000 0 true) 1000).uptime_seconds * 7812
        + (uptime_step IntWidth.w16 7812 (State.mk 5 1 7000 0 true) 1000).rtimer_delta
      = (State.mk 5 1 7000 0 true).uptime_seconds * 7812
        + rtimer_delta_incremented IntWidth.w16 (State.mk 5 1 7000 0 true).rtimer_delta
            (State.mk 5 1 7000 0 true).rtimer_last (toUShort 1000) :=
  ticks_conserved IntWidth.w16 7812 (State.mk 5 1 7000 0 true) 1000 (by decide) (by decide)

/-- C16: for every `last` in `[0, 65535]` a sample equal to `last` takes the
else branch and adds 65535 ticks, so the tick delta becomes
`(delta + 65535) mod 65536` before normalisation; from the initial state a first
sample 0 leaves `uptime_seconds` = `65535 / RTIMER_SECOND`. -/
theorem equal_sample_full_wrap (iw : IntWidth) (last : Nat) (hl : last ≤ 65535) :
    rtimer_increment iw last last = 65535 ∧
    (∀ delta : Nat, rtimer_delta_incremented iw delta last last = (delta + 65535) % 65536) ∧
    (∀ T : Nat, (uptime_step iw T State.initial 0).uptime_seconds = 65535 / T) := by
  refine ⟨?_, ?_, ?_⟩
  · rw [rtimer_increment_eq iw last last hl hl]
    split <;> omega
  · intro delta
    rw [rtimer_delta_incremented_eq iw delta last last hl hl]
    split
    · omega
    · congr 2; omega
  · intro T
    have hd : rtimer_delta_incremented iw State.initial.rtimer_delta State.initial.rtimer_last
        (toUShort ((0 : Nat) : Int)) = 65535 := by
      rw [toUShort_of_lt 0 (by decide),
        rtimer_delta_incremented_eq iw _ _ 0 (by decide) (by decide)]
      rfl
    rw [uptime_step_eq, hd]
    show ite _ _ _ = _
    have hle : 65535 / T ≤ 65535 := Nat.div_le_self _ _
    by_cases h : 0 < 65535 / T
    · rw [if_pos h]
      show (0 + 65535 / T) % 4294967296 = _
      rw [Nat.zero_add, Nat.mod_eq_of_lt (by omega)]
    · rw [if_neg h]
      show 0 = _
      exact (Nat.eq_zero_of_not_pos h).symm

/-- C16 with `last` = 0 and `RTIMER_SECOND` = 7812: the first sample 0 from the
initial state credits 8 seconds. -/
theorem equal_sample_full_wrap_witness :
    rtimer_increment IntWidth.w16 0 0 = 65535 ∧
    (uptime_step IntWidth.w16 7812 State.initial 0).uptime_seconds = 65535 / 7812 :=
  ⟨(equal_sample_full_wrap IntWidth.w16 0 (by decide)).1,
   (equal_sample_full_wrap IntWidth.w16 0 (by decide)).2.2 7812⟩

end Uptime
